import Mathlib

/-!
Shallow embedding of the parts of the nachocano/pkg repository that the frozen
claims are about: the Stackdriver metric-to-monitored-resource dispatch
(src/metrics), Destination validation (src/unnamed/part_000), and the duck-typed
Source helpers (src/apis/duck/v1/source_types.go), together with theorems
settling each claim.
-/

namespace KnativePkg

/-- An OpenCensus tag (go.opencensus.io/tag.Tag), with the tag key flattened to
its name string, as the source only ever consults t.Key.Name(). -/
structure Tag where
  Key : String
  Value : String
  deriving DecidableEq

/-- Modelled from the spec: monitoredresources.GcpMetadata (package
knative.dev/pkg/metrics/monitoredresources is not under src/). The spec says the
project, location and cluster resource labels come from environment/platform
metadata; this record carries those three fields, as the src getters read
gm.Project, gm.Location and gm.Cluster. -/
structure GcpMetadata where
  Project : String
  Location : String
  Cluster : String
  deriving DecidableEq

/-- Modelled from the spec: metricskey.LabelProject (package
knative.dev/pkg/metrics/metricskey is not under src/); the claims name this
resource-label key "project". -/
def LabelProject : String := "project"

/-- Modelled from the spec: metricskey.LabelLocation (not under src/). -/
def LabelLocation : String := "location"

/-- Modelled from the spec: metricskey.LabelClusterName (not under src/). -/
def LabelClusterName : String := "cluster_name"

/-- Modelled from the spec: metricskey.LabelNamespaceName (not under src/). -/
def LabelNamespaceName : String := "namespace_name"

/-- Modelled from the spec: metricskey.ValueUnknown (not under src/); the spec
says tag-derived resource labels default to "unknown" when the tag is absent. -/
def ValueUnknown : String := "unknown"

/-- Modelled from the spec: metricskeyserving.LabelServiceName (package
knative.dev/pkg/metrics/metricskey/serving is not under src/). -/
def LabelServiceName : String := "service_name"

/-- Modelled from the spec: metricskeyserving.LabelConfigurationName (not under
src/). -/
def LabelConfigurationName : String := "configuration_name"

/-- Modelled from the spec: metricskeyserving.LabelRevisionName (not under
src/). -/
def LabelRevisionName : String := "revision_name"

/-- Modelled from the spec: metricskeyserving.LabelRouteName (not under src/);
the tests keep a route_name tag on revision metrics, so it is a metrics label
that is not a resource label. -/
def LabelRouteName : String := "route_name"

-- Source constants: src/metrics/monitoredresources/eventing/monitored_resources.go
-- (metricskey eventing part).

/-- ResourceTypeKnativeTrigger is the Stackdriver resource type for Knative Triggers. -/
def ResourceTypeKnativeTrigger : String := "knative_trigger"

/-- ResourceTypeKnativeBroker is the Stackdriver resource type for Knative Brokers. -/
def ResourceTypeKnativeBroker : String := "knative_broker"

/-- ResourceTypeKnativeImporter is the Stackdriver resource type for Knative Importers. -/
def ResourceTypeKnativeImporter : String := "knative_importer"

/-- LabelTriggerName is the label for the name of the Trigger. -/
def LabelTriggerName : String := "trigger_name"

/-- LabelBrokerName is the label for the name of the Broker. -/
def LabelBrokerName : String := "broker_name"

/-- LabelImporterName is the label for the name of the Importer. -/
def LabelImporterName : String := "importer_name"

/-- LabelImporterKind is the full kind of the Importer. -/
def LabelImporterKind : String := "importer_kind"

/-- Modelled from the spec: metricskeyeventing.LabelTriggerTypeFilterAttribute
(its defining constant is not under src/); the claims name this key
"trigger_filter_type" (the type-filter attribute of a Trigger). -/
def LabelTriggerTypeFilterAttribute : String := "trigger_filter_type"

/-- Modelled from the spec: metricskeyeventing.LabelTriggerSourceFilterAttribute
(its defining constant is not under src/); the claims name this key
"trigger_filter_source" (the source-filter attribute of a Trigger). -/
def LabelTriggerSourceFilterAttribute : String := "trigger_filter_source"

/-- KnativeTriggerLabels stores the set of resource labels for resource type
knative_trigger (a sets.String in the source, embedded as the list of its
elements in insertion order). Note the source set does NOT contain the two
filter-attribute labels. -/
def KnativeTriggerLabels : List String :=
  [LabelProject, LabelLocation, LabelClusterName, LabelNamespaceName,
   LabelTriggerName, LabelBrokerName]

/-- KnativeTriggerMetrics stores the set of metric types supported by resource
type knative_trigger. -/
def KnativeTriggerMetrics : List String :=
  ["knative.dev/eventing/trigger/event_count",
   "knative.dev/eventing/trigger/event_process_latencies",
   "knative.dev/eventing/trigger/event_dispatch_latencies"]

/-- KnativeBrokerLabels stores the set of resource labels for resource type
knative_broker. -/
def KnativeBrokerLabels : List String :=
  [LabelProject, LabelLocation, LabelClusterName, LabelNamespaceName,
   LabelBrokerName]

/-- KnativeBrokerMetrics stores the set of metric types supported by resource
type knative_broker. -/
def KnativeBrokerMetrics : List String :=
  ["knative.dev/eventing/broker/event_count"]

/-- KnativeImporterLabels stores the set of resource labels for resource type
knative_importer. -/
def KnativeImporterLabels : List String :=
  [LabelProject, LabelLocation, LabelClusterName, LabelNamespaceName,
   LabelImporterName, LabelImporterKind]

/-- KnativeImporterMetrics stores the set of metric types supported by resource
type knative_importer. -/
def KnativeImporterMetrics : List String :=
  ["knative.dev/eventing/importer/event_count"]

/-- Modelled from the spec: metricskeyserving.KnativeRevisionMetrics (package
knative.dev/pkg/metrics/metricskey/serving is not under src/). The spec calls
them the "knative revision" metric names; the tests in src exercise
activator/request_count and autoscaler/desired_pods as members, so those are the
members included here. -/
def KnativeRevisionMetrics : List String :=
  ["knative.dev/serving/activator/request_count",
   "knative.dev/serving/autoscaler/desired_pods"]

/-- Modelled from the spec: metricskeyserving.KnativeRevisionLabels (not under
src/): the resource labels of the knative_revision resource type, which the spec
table lists as project, location, cluster, namespace, service, configuration and
revision. -/
def KnativeRevisionLabels : List String :=
  [LabelProject, LabelLocation, LabelClusterName, LabelNamespaceName,
   LabelServiceName, LabelConfigurationName, LabelRevisionName]

/-- Modelled from the spec: monitoredresources.GetTagsMap (not under src/):
builds the lookup from tag key name to tag value over the metric tag set (the
source builds a Go map from the tag slice). -/
def GetTagsMap : List Tag → String → Option String
  | [], _ => none
  | t :: ts, k => if t.Key = k then some t.Value else GetTagsMap ts k

/-- Modelled from the spec: monitoredresources.ValueOrUnknown (not under src/):
the value under the given key, defaulting to "unknown" if absent, exactly as the
spec table states for tag-derived resource labels. -/
def ValueOrUnknown (k : String) (m : String → Option String) : String :=
  match m k with
  | some v => v
  | none => ValueUnknown

/-- Go path.Join of the metric type prefix and the measure name, specialised to
already-clean path segments (the only way the source calls it): empty parts are
dropped and the remaining parts are joined with a slash. -/
def pathJoin (a b : String) : String :=
  if a = "" then b else if b = "" then a else a ++ "/" ++ b

-- Monitored-resource structs: src/metrics/monitoredresources/eventing and
-- src/metrics/monitoredresources/serving.

structure KnativeTrigger where
  Project : String
  Location : String
  ClusterName : String
  NamespaceName : String
  TriggerName : String
  BrokerName : String
  TypeFilterAttribute : String
  SourceFilterAttribute : String
  deriving DecidableEq

structure KnativeBroker where
  Project : String
  Location : String
  ClusterName : String
  NamespaceName : String
  BrokerName : String
  deriving DecidableEq

structure KnativeImporter where
  Project : String
  Location : String
  ClusterName : String
  NamespaceName : String
  ImporterName : String
  ImporterKind : String
  deriving DecidableEq

structure KnativeRevision where
  Project : String
  Location : String
  ClusterName : String
  NamespaceName : String
  ServiceName : String
  ConfigurationName : String
  RevisionName : String
  deriving DecidableEq

/-- KnativeTrigger.MonitoredResource from the source: resource type and label
map (the Go map is embedded as an association list in the written key order). -/
def KnativeTrigger.MonitoredResource (kt : KnativeTrigger) :
    String × List (String × String) :=
  ("knative_trigger",
   [(LabelProject, kt.Project),
    (LabelLocation, kt.Location),
    (LabelClusterName, kt.ClusterName),
    (LabelNamespaceName, kt.NamespaceName),
    (LabelTriggerName, kt.TriggerName),
    (LabelBrokerName, kt.BrokerName),
    (LabelTriggerTypeFilterAttribute, kt.TypeFilterAttribute),
    (LabelTriggerSourceFilterAttribute, kt.SourceFilterAttribute)])

/-- KnativeBroker.MonitoredResource from the source. -/
def KnativeBroker.MonitoredResource (kb : KnativeBroker) :
    String × List (String × String) :=
  ("knative_broker",
   [(LabelProject, kb.Project),
    (LabelLocation, kb.Location),
    (LabelClusterName, kb.ClusterName),
    (LabelNamespaceName, kb.NamespaceName),
    (LabelBrokerName, kb.BrokerName)])

/-- KnativeImporter.MonitoredResource from the source. -/
def KnativeImporter.MonitoredResource (ki : KnativeImporter) :
    String × List (String × String) :=
  ("knative_importer",
   [(LabelProject, ki.Project),
    (LabelLocation, ki.Location),
    (LabelClusterName, ki.ClusterName),
    (LabelNamespaceName, ki.NamespaceName),
    (LabelImporterName, ki.ImporterName),
    (LabelImporterKind, ki.ImporterKind)])

/-- KnativeRevision.MonitoredResource from the source. -/
def KnativeRevision.MonitoredResource (kr : KnativeRevision) :
    String × List (String × String) :=
  ("knative_revision",
   [(LabelProject, kr.Project),
    (LabelLocation, kr.Location),
    (LabelClusterName, kr.ClusterName),
    (LabelNamespaceName, kr.NamespaceName),
    (LabelServiceName, kr.ServiceName),
    (LabelConfigurationName, kr.ConfigurationName),
    (LabelRevisionName, kr.RevisionName)])

/-- The monitoredresource.Interface values the dispatch can return: one of the
four src structs, or the Global resource of package monitoredresources. -/
inductive Resource where
  | revision : KnativeRevision → Resource
  | broker : KnativeBroker → Resource
  | trigger : KnativeTrigger → Resource
  | importer : KnativeImporter → Resource
  | global : Resource
  deriving DecidableEq

/-- MonitoredResource() on the interface value. The global case is modelled from
the spec: monitoredresources.Global (not under src/) has resource type "global"
and no extracted labels, per the spec table row "none of the above". -/
def Resource.monitoredResource : Resource → String × List (String × String)
  | .revision kr => kr.MonitoredResource
  | .broker kb => kb.MonitoredResource
  | .trigger kt => kt.MonitoredResource
  | .importer ki => ki.MonitoredResource
  | .global => ("global", [])

/-- The tag-keeping loop shared verbatim by the four getters in the source:
starting from an empty slice, append every tag whose key is not one of the
resource labels. -/
def keepTags (resourceLabels : List String) (tags : List Tag) : List Tag :=
  tags.foldl
    (fun newTags t => if t.Key ∈ resourceLabels then newTags else newTags ++ [t])
    []

/-- GetKnativeBrokerMonitoredResource from the source (the unused view argument
is dropped). -/
def GetKnativeBrokerMonitoredResource (tags : List Tag) (gm : GcpMetadata) :
    List Tag × Resource :=
  let tagsMap := GetTagsMap tags
  let kb : KnativeBroker :=
    { Project := gm.Project
      Location := gm.Location
      ClusterName := gm.Cluster
      NamespaceName := ValueOrUnknown LabelNamespaceName tagsMap
      BrokerName := ValueOrUnknown LabelBrokerName tagsMap }
  (keepTags KnativeBrokerLabels tags, Resource.broker kb)

/-- GetKnativeTriggerMonitoredResource from the source. -/
def GetKnativeTriggerMonitoredResource (tags : List Tag) (gm : GcpMetadata) :
    List Tag × Resource :=
  let tagsMap := GetTagsMap tags
  let kt : KnativeTrigger :=
    { Project := gm.Project
      Location := gm.Location
      ClusterName := gm.Cluster
      NamespaceName := ValueOrUnknown LabelNamespaceName tagsMap
      TriggerName := ValueOrUnknown LabelTriggerName tagsMap
      BrokerName := ValueOrUnknown LabelBrokerName tagsMap
      TypeFilterAttribute := ValueOrUnknown LabelTriggerTypeFilterAttribute tagsMap
      SourceFilterAttribute := ValueOrUnknown LabelTriggerSourceFilterAttribute tagsMap }
  (keepTags KnativeTriggerLabels tags, Resource.trigger kt)

/-- GetKnativeImporterMonitoredResource from the source. Note: the dispatch in
src/metrics/stackdriver_exporter.go never calls this function. -/
def GetKnativeImporterMonitoredResource (tags : List Tag) (gm : GcpMetadata) :
    List Tag × Resource :=
  let tagsMap := GetTagsMap tags
  let ki : KnativeImporter :=
    { Project := gm.Project
      Location := gm.Location
      ClusterName := gm.Cluster
      NamespaceName := ValueOrUnknown LabelNamespaceName tagsMap
      ImporterName := ValueOrUnknown LabelImporterName tagsMap
      ImporterKind := ValueOrUnknown LabelImporterKind tagsMap }
  (keepTags KnativeImporterLabels tags, Resource.importer ki)

/-- GetKnativeRevisionMonitoredResource from
src/metrics/monitoredresources/serving/monitored_resources.go. -/
def GetKnativeRevisionMonitoredResource (tags : List Tag) (gm : GcpMetadata) :
    List Tag × Resource :=
  let tagsMap := GetTagsMap tags
  let kr : KnativeRevision :=
    { Project := gm.Project
      Location := gm.Location
      ClusterName := gm.Cluster
      NamespaceName := ValueOrUnknown LabelNamespaceName tagsMap
      ServiceName := ValueOrUnknown LabelServiceName tagsMap
      ConfigurationName := ValueOrUnknown LabelConfigurationName tagsMap
      RevisionName := ValueOrUnknown LabelRevisionName tagsMap }
  (keepTags KnativeRevisionLabels tags, Resource.revision kr)

/-- getGlobalMonitoredResource from src/metrics/stackdriver_exporter.go: the
input tags unchanged, paired with the Global resource. -/
def getGlobalMonitoredResource (tags : List Tag) : List Tag × Resource :=
  (tags, Resource.global)

/-- The function returned by getMonitoredResourceFunc in
src/metrics/stackdriver_exporter.go, applied to a view (represented by its
measure name, the only part the source reads) and a tag list. The source
computes metricType = path.Join(metricTypePrefix, view.Measure.Name()) once and
tests it against the four metric sets in this order. The importer branch calls
GetKnativeTriggerMonitoredResource, exactly as written at line 95 of the
source. -/
def getMonitoredResource (typePref : String) (gm : GcpMetadata)
    (measureName : String) (tags : List Tag) : List Tag × Resource :=
  if pathJoin typePref measureName ∈ KnativeRevisionMetrics then
    GetKnativeRevisionMonitoredResource tags gm
  else if pathJoin typePref measureName ∈ KnativeBrokerMetrics then
    GetKnativeBrokerMonitoredResource tags gm
  else if pathJoin typePref measureName ∈ KnativeTriggerMetrics then
    GetKnativeTriggerMonitoredResource tags gm
  else if pathJoin typePref measureName ∈ KnativeImporterMetrics then
    GetKnativeTriggerMonitoredResource tags gm
  else
    getGlobalMonitoredResource tags

/-- The function returned by getMetricTypeFunc in
src/metrics/stackdriver_exporter.go. -/
def getMetricType (typePref customTypePref measureName : String) : String :=
  if pathJoin typePref measureName ∈ KnativeRevisionMetrics ∨
      (pathJoin typePref measureName ∈ KnativeBrokerMetrics ∨
       pathJoin typePref measureName ∈ KnativeTriggerMetrics ∨
       pathJoin typePref measureName ∈ KnativeImporterMetrics) then
    pathJoin typePref measureName
  else
    pathJoin customTypePref measureName

/-- The branch of the if/else-if chain of getMonitoredResourceFunc selected for
a given joined metric type. -/
inductive Branch where
  | revision
  | broker
  | trigger
  | importer
  | global
  deriving DecidableEq

/-- Branch selection in the order written in the source. -/
def selectBranch (metricType : String) : Branch :=
  if metricType ∈ KnativeRevisionMetrics then Branch.revision
  else if metricType ∈ KnativeBrokerMetrics then Branch.broker
  else if metricType ∈ KnativeTriggerMetrics then Branch.trigger
  else if metricType ∈ KnativeImporterMetrics then Branch.importer
  else Branch.global

/-- Branch selection with the membership tests permuted (fully reversed). -/
def selectBranchPerm (metricType : String) : Branch :=
  if metricType ∈ KnativeImporterMetrics then Branch.importer
  else if metricType ∈ KnativeTriggerMetrics then Branch.trigger
  else if metricType ∈ KnativeBrokerMetrics then Branch.broker
  else if metricType ∈ KnativeRevisionMetrics then Branch.revision
  else Branch.global

/-- The getter invoked for each branch; the importer branch calls the trigger
getter as in the source. -/
def applyBranch (gm : GcpMetadata) (tags : List Tag) : Branch → List Tag × Resource
  | Branch.revision => GetKnativeRevisionMonitoredResource tags gm
  | Branch.broker => GetKnativeBrokerMonitoredResource tags gm
  | Branch.trigger => GetKnativeTriggerMonitoredResource tags gm
  | Branch.importer => GetKnativeTriggerMonitoredResource tags gm
  | Branch.global => getGlobalMonitoredResource tags

/-- getMetricTypeFunc with the membership disjunction permuted (reversed). -/
def getMetricTypePerm (typePref customTypePref measureName : String) : String :=
  if pathJoin typePref measureName ∈ KnativeImporterMetrics ∨
      (pathJoin typePref measureName ∈ KnativeTriggerMetrics ∨
       pathJoin typePref measureName ∈ KnativeBrokerMetrics ∨
       pathJoin typePref measureName ∈ KnativeRevisionMetrics) then
    pathJoin typePref measureName
  else
    pathJoin customTypePref measureName

-- src/unnamed/part_000: Destination and its validation (package
-- apis/duck/v1alpha1 of the repository).

/-- corev1.ObjectReference (external Kubernetes type), restricted to its string
fields in struct order: Kind, Namespace, Name, UID, APIVersion, ResourceVersion,
FieldPath. The validation code reflects over exactly these fields. -/
structure ObjectReference where
  Kind : String
  Namespace : String
  Name : String
  UID : String
  APIVersion : String
  ResourceVersion : String
  FieldPath : String
  deriving DecidableEq

/-- apis.URL (external to src/), reduced to the parts the validation reads:
URL().IsAbs() is true when the scheme is non-empty, and the Host field. -/
structure URL where
  Scheme : String
  Host : String
  deriving DecidableEq

/-- IsAbs of the underlying net/url URL: the scheme is non-empty. -/
def URL.IsAbs (u : URL) : Bool := u.Scheme ≠ ""

/-- Modelled from the spec: apis.FieldError (package knative.dev/pkg/apis is not
under src/): a structured field error with a message and field paths; a Go nil
pointer is Option.none. -/
structure FieldError where
  Message : String
  Paths : List String
  deriving DecidableEq

/-- Modelled from the spec: the FieldError.Also combinator (not under src/): nil
absorbs, two non-nil errors merge. Only nil-ness matters to the claims. -/
def alsoErr : Option FieldError → Option FieldError → Option FieldError
  | none, e => e
  | some f, none => some f
  | some f, some g => some ⟨f.Message ++ "; " ++ g.Message, f.Paths ++ g.Paths⟩

/-- Modelled from the spec: apis.ErrGeneric (not under src/): always a non-nil
error naming the given paths. -/
def ErrGeneric (msg : String) (paths : List String) : Option FieldError :=
  some ⟨msg, paths⟩

/-- Modelled from the spec: apis.ErrInvalidValue (not under src/). -/
def ErrInvalidValue (v : String) (fieldPath : String) : Option FieldError :=
  some ⟨"invalid value: " ++ v, [fieldPath]⟩

/-- Modelled from the spec: apis.ErrMissingField (not under src/). -/
def ErrMissingField (fieldPath : String) : Option FieldError :=
  some ⟨"missing field(s)", [fieldPath]⟩

/-- Modelled from the spec: apis.ErrDisallowedFields (not under src/). -/
def ErrDisallowedFields (fieldPaths : List String) : Option FieldError :=
  some ⟨"must not set the field(s)", fieldPaths⟩

/-- Modelled from the spec: FieldError.ViaField (not under src/): nil stays nil,
a non-nil error has the field prepended to its paths. -/
def viaFieldErr (e : Option FieldError) (f : String) : Option FieldError :=
  e.map fun fe => ⟨fe.Message, fe.Paths.map fun p => f ++ "." ++ p⟩

/-- Destination from src/unnamed/part_000: a target of an invocation over HTTP,
with an optional Ref, three deprecated scalar fields and an optional URI. -/
structure Destination where
  Ref : Option ObjectReference
  DeprecatedAPIVersion : String
  DeprecatedKind : String
  DeprecatedName : String
  URI : Option URL
  deriving DecidableEq

/-- deprecatedObjectReference from the source: nil when all three deprecated
fields are empty, otherwise an ObjectReference built from them. -/
def Destination.deprecatedObjectReference (dest : Destination) :
    Option ObjectReference :=
  if dest.DeprecatedAPIVersion = "" ∧ dest.DeprecatedKind = "" ∧
      dest.DeprecatedName = "" then
    none
  else
    some { Kind := dest.DeprecatedKind
           Namespace := ""
           Name := dest.DeprecatedName
           UID := ""
           APIVersion := dest.DeprecatedAPIVersion
           ResourceVersion := ""
           FieldPath := "" }

/-- checkRequiredObjectReferenceFields from the source: name, apiVersion and
kind must be set. -/
def checkRequiredObjectReferenceFields (f : ObjectReference) : Option FieldError :=
  let errs : Option FieldError := none
  let errs := if f.Name = "" then alsoErr errs (ErrMissingField "name") else errs
  let errs := if f.APIVersion = "" then alsoErr errs (ErrMissingField "apiVersion") else errs
  if f.Kind = "" then alsoErr errs (ErrMissingField "kind") else errs

/-- checkDisallowedObjectReferenceFields from the source: the reflection loop
over the ObjectReference fields other than Name, Kind and APIVersion, in struct
order (Namespace, UID, ResourceVersion, FieldPath), collecting the non-zero
ones. -/
def checkDisallowedObjectReferenceFields (f : ObjectReference) : Option FieldError :=
  let disallowedFields : List String := []
  let disallowedFields :=
    if f.Namespace ≠ "" then disallowedFields ++ ["Namespace"] else disallowedFields
  let disallowedFields :=
    if f.UID ≠ "" then disallowedFields ++ ["UID"] else disallowedFields
  let disallowedFields :=
    if f.ResourceVersion ≠ "" then disallowedFields ++ ["ResourceVersion"] else disallowedFields
  let disallowedFields :=
    if f.FieldPath ≠ "" then disallowedFields ++ ["FieldPath"] else disallowedFields
  if disallowedFields.length > 0 then ErrDisallowedFields disallowedFields else none

/-- IsValidObjectReference from the source. -/
def IsValidObjectReference (f : ObjectReference) : Option FieldError :=
  alsoErr (checkRequiredObjectReferenceFields f) (checkDisallowedObjectReferenceFields f)

/-- The three deprecated-field checks of ValidateDestination when deprecated
fields are disallowed (the body of the if !allowDeprecatedFields block). -/
def validateDeprecatedFields (dest : Destination) : Option FieldError :=
  let errs : Option FieldError := none
  let errs :=
    if dest.DeprecatedAPIVersion ≠ "" then
      alsoErr errs (ErrInvalidValue "apiVersion is not allowed here, a deprecated value" "apiVersion")
    else errs
  let errs :=
    if dest.DeprecatedKind ≠ "" then
      alsoErr errs (ErrInvalidValue "kind is not allowed here, a deprecated value" "kind")
    else errs
  if dest.DeprecatedName ≠ "" then
    alsoErr errs (ErrInvalidValue "name is not allowed here, a deprecated value" "name")
  else errs

/-- The body of ValidateDestination after the deprecated-field block (from the
line computing deprecatedObjectReference to the end), with the early returns of
the Go body rendered as an if/else chain in source order. -/
def validateDestinationRefURI (dest : Destination) : Option FieldError :=
    let depRef := dest.deprecatedObjectReference
    if dest.Ref.isSome && depRef.isSome then
      ErrGeneric "ref and [apiVersion, kind, name] cannot be both present"
        ["[apiVersion, kind, name]", "ref"]
    else
      let ref := if dest.Ref.isSome then dest.Ref else depRef
      if ref.isNone && dest.URI.isNone then
        ErrGeneric "expected at least one, got none"
          ["[apiVersion, kind, name]", "ref", "uri"]
      else if ref.isSome && dest.URI.isSome &&
          (dest.URI.map URL.IsAbs).getD false then
        ErrGeneric "absolute URI is not allowed when Ref or [apiVersion, kind, name] is present"
          ["[apiVersion, kind, name]", "ref", "uri"]
      else if ref.isNone && dest.URI.isSome &&
          (!(dest.URI.map URL.IsAbs).getD false ||
           (dest.URI.map URL.Host).getD "" = "") then
        ErrInvalidValue "relative URI is not allowed when Ref and [apiVersion, kind, name] is absent" "uri"
      else if ref.isSome && dest.URI.isNone then
        match ref with
        | some r =>
          if dest.Ref.isSome then viaFieldErr (IsValidObjectReference r) "ref"
          else IsValidObjectReference r
        | none => none
      else
        none

/-- ValidateDestination from src/unnamed/part_000: the deprecated-field block
(run only when deprecated fields are disallowed) returns early when it found
errors; otherwise the ref/URI checks run. -/
def ValidateDestination (dest : Destination) (allowDeprecatedFields : Bool) :
    Option FieldError :=
  match (if !allowDeprecatedFields then validateDeprecatedFields dest else none) with
  | some errs => some errs
  | none => validateDestinationRefURI dest

/-- Destination.GetRef from the source: a nil receiver gives nil; a non-nil Ref
wins; otherwise the deprecated ObjectReference when present; otherwise nil. -/
def Destination.GetRef : Option Destination → Option ObjectReference
  | none => none
  | some dest =>
    if dest.Ref.isSome then dest.Ref
    else
      match dest.deprecatedObjectReference with
      | some r => some r
      | none => none

-- src/apis/duck/v1/source_types.go: ScalerSpec defaults and SourceStatus.IsReady.

/-- ScalerClassKeda is the Keda Scaler class. -/
def ScalerClassKeda : String := "keda"

/-- ScalerClassKsvc is the Knative Service class. -/
def ScalerClassKsvc : String := "ksvc"

/-- defaultScalerClass is the default scaler class. -/
def defaultScalerClass : String := ScalerClassKeda

/-- defaultMinScale is the default minimum set of Pods the scaler should
downscale the source to. -/
def defaultMinScale : Int := 0

/-- defaultMaxScale is the default maximum set of Pods the scaler should
upscale the source to. -/
def defaultMaxScale : Int := 1

/-- ScalerSpec from the source. The Go field named for the class of scaler is
rendered klass here because its Go spelling collides with a Lean keyword in
lowercase form; MinScale and MaxScale are optional int32 pointers (values 0 and
1 only, so Int is exact). -/
structure ScalerSpec where
  klass : String
  MinScale : Option Int
  MaxScale : Option Int
  Options : List (String × String)
  deriving DecidableEq

/-- ScalerSpec.SetDefault on a non-nil receiver: fill klass, MinScale and
MaxScale when unset, in source order. -/
def ScalerSpec.SetDefault (ss : ScalerSpec) : ScalerSpec :=
  let ss := if ss.klass = "" then { ss with klass := defaultScalerClass } else ss
  let ss := if ss.MinScale = none then { ss with MinScale := some defaultMinScale } else ss
  if ss.MaxScale = none then { ss with MaxScale := some defaultMaxScale } else ss

/-- ScalerSpec.SetDefault including the nil-receiver guard of the Go method. -/
def SetDefaultOpt : Option ScalerSpec → Option ScalerSpec
  | none => none
  | some ss => some ss.SetDefault

/-- apis.ConditionReady (modelled from the spec: package knative.dev/pkg/apis is
not under src/). -/
def ConditionReady : String := "Ready"

/-- apis.ConditionSucceeded (modelled from the spec: not under src/). -/
def ConditionSucceeded : String := "Succeeded"

/-- apis.Condition (modelled from the spec: not under src/), reduced to the two
fields IsReady reads: the condition type and its status. The Go field named Type
is rendered condType because Type is a Lean keyword. -/
structure Condition where
  condType : String
  Status : String
  deriving DecidableEq

/-- Condition.IsTrue (modelled from the spec: not under src/): the status is
"True". -/
def Condition.IsTrue (c : Condition) : Bool := c.Status = "True"

/-- The loop body of SourceStatus.IsReady: scan the conditions in order; at the
first one whose type is Ready or Succeeded, return whether it is true; if none
matches, return false. -/
def isReadyLoop : List Condition → Bool
  | [] => false
  | c :: cs =>
    if c.condType = ConditionReady ∨ c.condType = ConditionSucceeded then c.IsTrue
    else isReadyLoop cs

/-- SourceStatus from the source, reduced to the conditions list IsReady
consults (inherited through the embedded duck Status). -/
structure SourceStatus where
  Conditions : List Condition
  deriving DecidableEq

/-- SourceStatus.IsReady from the source. -/
def SourceStatus.IsReady (ss : SourceStatus) : Bool :=
  isReadyLoop ss.Conditions

/-! Helper lemmas shared by the claim theorems. -/

theorem keepTags_foldl_aux (L : List String) (tags : List Tag) (acc : List Tag) :
    tags.foldl
      (fun newTags t => if t.Key ∈ L then newTags else newTags ++ [t]) acc
      = acc ++ tags.filter (fun t => decide (t.Key ∉ L)) := by
  induction tags generalizing acc with
  | nil => simp
  | cons t ts ih =>
    by_cases h : t.Key ∈ L
    · simp [List.foldl_cons, h, ih]
    · simp [List.foldl_cons, h, ih]

/-- The tag-keeping loop of the getters returns exactly the input tags whose key
is not a resource label, in their original order. -/
theorem keepTags_eq_filter (L : List String) (tags : List Tag) :
    keepTags L tags = tags.filter (fun t => decide (t.Key ∉ L)) := by
  simpa using keepTags_foldl_aux L tags []

theorem GetTagsMap_eq_none (tags : List Tag) (k : String)
    (h : ∀ t ∈ tags, t.Key ≠ k) : GetTagsMap tags k = none := by
  induction tags with
  | nil => rfl
  | cons t ts ih =>
    have ht : t.Key ≠ k := h t (List.mem_cons_self t ts)
    simp only [GetTagsMap, if_neg ht]
    exact ih fun u hu => h u (List.mem_cons_of_mem t hu)

theorem GetTagsMap_eq_some (tags : List Tag) (t : Tag)
    (hnd : (tags.map Tag.Key).Nodup) (ht : t ∈ tags) :
    GetTagsMap tags t.Key = some t.Value := by
  induction tags with
  | nil => cases ht
  | cons u ts ih =>
    rcases List.mem_cons.mp ht with h | h
    · subst h
      simp [GetTagsMap]
    · have hu : u.Key ≠ t.Key := by
        intro hEq
        have : u.Key ∉ ts.map Tag.Key := (List.nodup_cons.mp (by simpa using hnd)).1
        exact this (hEq ▸ List.mem_map_of_mem Tag.Key h)
      simp only [GetTagsMap, if_neg hu]
      exact ih (List.nodup_cons.mp (by simpa using hnd)).2 h

/-- A tag-derived resource label value: it equals the value of the tag with the
corresponding key when such a tag is present, and "unknown" when it is
absent. -/
def TagDerived (tags : List Tag) (k v : String) : Prop :=
  (∀ t ∈ tags, t.Key = k → v = t.Value) ∧
  ((∀ t ∈ tags, t.Key ≠ k) → v = ValueUnknown)

theorem tagDerived_valueOrUnknown (tags : List Tag)
    (hnd : (tags.map Tag.Key).Nodup) (k : String) :
    TagDerived tags k (ValueOrUnknown k (GetTagsMap tags)) := by
  constructor
  · intro t ht hk
    have := GetTagsMap_eq_some tags t hnd ht
    rw [hk] at this
    simp [ValueOrUnknown, this]
  · intro h
    have := GetTagsMap_eq_none tags k h
    simp [ValueOrUnknown, this]

theorem disjRB : ∀ s ∈ KnativeRevisionMetrics, s ∉ KnativeBrokerMetrics := by
  decide

theorem disjRT : ∀ s ∈ KnativeRevisionMetrics, s ∉ KnativeTriggerMetrics := by
  decide

theorem disjRI : ∀ s ∈ KnativeRevisionMetrics, s ∉ KnativeImporterMetrics := by
  decide

theorem disjBR : ∀ s ∈ KnativeBrokerMetrics, s ∉ KnativeRevisionMetrics := by
  decide

theorem disjBT : ∀ s ∈ KnativeBrokerMetrics, s ∉ KnativeTriggerMetrics := by
  decide

theorem disjBI : ∀ s ∈ KnativeBrokerMetrics, s ∉ KnativeImporterMetrics := by
  decide

theorem disjTR : ∀ s ∈ KnativeTriggerMetrics, s ∉ KnativeRevisionMetrics := by
  decide

theorem disjTB : ∀ s ∈ KnativeTriggerMetrics, s ∉ KnativeBrokerMetrics := by
  decide

theorem disjTI : ∀ s ∈ KnativeTriggerMetrics, s ∉ KnativeImporterMetrics := by
  decide

theorem disjIR : ∀ s ∈ KnativeImporterMetrics, s ∉ KnativeRevisionMetrics := by
  decide

theorem disjIB : ∀ s ∈ KnativeImporterMetrics, s ∉ KnativeBrokerMetrics := by
  decide

theorem disjIT : ∀ s ∈ KnativeImporterMetrics, s ∉ KnativeTriggerMetrics := by
  decide

theorem selectBranch_revision {s : String} (h : s ∈ KnativeRevisionMetrics) :
    selectBranch s = Branch.revision := by
  unfold selectBranch
  rw [if_pos h]

theorem selectBranch_broker {s : String} (h : s ∈ KnativeBrokerMetrics) :
    selectBranch s = Branch.broker := by
  unfold selectBranch
  rw [if_neg (disjBR s h), if_pos h]

theorem selectBranch_trigger {s : String} (h : s ∈ KnativeTriggerMetrics) :
    selectBranch s = Branch.trigger := by
  unfold selectBranch
  rw [if_neg (disjTR s h), if_neg (disjTB s h), if_pos h]

theorem selectBranch_importer {s : String} (h : s ∈ KnativeImporterMetrics) :
    selectBranch s = Branch.importer := by
  unfold selectBranch
  rw [if_neg (disjIR s h), if_neg (disjIB s h), if_neg (disjIT s h), if_pos h]

theorem selectBranch_global {s : String}
    (h1 : s ∉ KnativeRevisionMetrics) (h2 : s ∉ KnativeBrokerMetrics)
    (h3 : s ∉ KnativeTriggerMetrics) (h4 : s ∉ KnativeImporterMetrics) :
    selectBranch s = Branch.global := by
  unfold selectBranch
  rw [if_neg h1, if_neg h2, if_neg h3, if_neg h4]

/-- The dispatch factors as branch selection followed by the selected getter. -/
theorem getMonitoredResource_eq_applyBranch (typePref : String)
    (gm : GcpMetadata) (measureName : String) (tags : List Tag) :
    getMonitoredResource typePref gm measureName tags
      = applyBranch gm tags (selectBranch (pathJoin typePref measureName)) := by
  unfold getMonitoredResource selectBranch
  split_ifs <;> rfl

/-! Claim theorems. -/

/-- Claim C1 (evidence of the code bug): the joined metric type
knative.dev/eventing/importer/event_count is a knative importer metric, yet the
function returned by getMonitoredResourceFunc produces a monitored resource
whose MonitoredResource() resource type is knative_trigger with the trigger
label keys, because the importer branch of the dispatch calls
GetKnativeTriggerMonitoredResource instead of
GetKnativeImporterMonitoredResource. -/
theorem importer_metric_dispatched_to_trigger_resource :
    "knative.dev/eventing/importer/event_count" ∈ KnativeImporterMetrics ∧
    ((getMonitoredResource "knative.dev/eventing/importer" ⟨"p", "l", "c"⟩
        "event_count" []).2.monitoredResource).1 = "knative_trigger" ∧
    ((getMonitoredResource "knative.dev/eventing/importer" ⟨"p", "l", "c"⟩
        "event_count" []).2.monitoredResource).2.map Prod.fst
      = [LabelProject, LabelLocation, LabelClusterName, LabelNamespaceName,
         LabelTriggerName, LabelBrokerName, LabelTriggerTypeFilterAttribute,
         LabelTriggerSourceFilterAttribute] := by
  decide

/-- Claim C2 (counterexample): for a trigger-metric view, the type-filter
attribute is one of the labels extracted into the KnativeTrigger monitored
resource, yet tags keyed trigger_filter_type and trigger_filter_source are NOT
removed from the returned tag set: the dispatch returns the input tag list
unchanged, refuting the claim that tags corresponding to all extracted labels
are removed. -/
theorem trigger_filter_tags_not_removed :
    "knative.dev/eventing/trigger/event_count" ∈ KnativeTriggerMetrics ∧
    LabelTriggerTypeFilterAttribute ∈
      ((KnativeTrigger.MonitoredResource
        ⟨"p", "l", "c", "n", "t", "b", "tf", "sf"⟩).2.map Prod.fst) ∧
    LabelTriggerSourceFilterAttribute ∈
      ((KnativeTrigger.MonitoredResource
        ⟨"p", "l", "c", "n", "t", "b", "tf", "sf"⟩).2.map Prod.fst) ∧
    (getMonitoredResource "knative.dev/eventing/trigger" ⟨"p", "l", "c"⟩
        "event_count"
        [⟨LabelTriggerTypeFilterAttribute, "tf"⟩,
         ⟨LabelTriggerSourceFilterAttribute, "sf"⟩]).1
      = [⟨LabelTriggerTypeFilterAttribute, "tf"⟩,
         ⟨LabelTriggerSourceFilterAttribute, "sf"⟩] := by
  decide

/-- Claim C2 (amended): for every view matching one of the four metric sets, the
returned tag list contains exactly the input tags whose key is not in the
declared resource-label set consulted by the selected getter, in their original
order; the trigger getter consults KnativeTriggerLabels, which does not contain
trigger_filter_type or trigger_filter_source, so those tags pass through; and
importer-metric views are filtered against KnativeTriggerLabels as well, because
the importer branch calls the trigger getter. -/
theorem dispatch_tag_filtering (typePref measureName : String)
    (gm : GcpMetadata) (tags : List Tag) :
    (pathJoin typePref measureName ∈ KnativeRevisionMetrics →
      (getMonitoredResource typePref gm measureName tags).1
        = tags.filter (fun t => decide (t.Key ∉ KnativeRevisionLabels))) ∧
    (pathJoin typePref measureName ∈ KnativeBrokerMetrics →
      (getMonitoredResource typePref gm measureName tags).1
        = tags.filter (fun t => decide (t.Key ∉ KnativeBrokerLabels))) ∧
    (pathJoin typePref measureName ∈ KnativeTriggerMetrics →
      (getMonitoredResource typePref gm measureName tags).1
        = tags.filter (fun t => decide (t.Key ∉ KnativeTriggerLabels))) ∧
    (pathJoin typePref measureName ∈ KnativeImporterMetrics →
      (getMonitoredResource typePref gm measureName tags).1
        = tags.filter (fun t => decide (t.Key ∉ KnativeTriggerLabels))) ∧
    LabelTriggerTypeFilterAttribute ∉ KnativeTriggerLabels ∧
    LabelTriggerSourceFilterAttribute ∉ KnativeTriggerLabels := by
  refine ⟨?_, ?_, ?_, ?_, by decide, by decide⟩
  · intro h
    rw [getMonitoredResource_eq_applyBranch, selectBranch_revision h]
    exact keepTags_eq_filter _ _
  · intro h
    rw [getMonitoredResource_eq_applyBranch, selectBranch_broker h]
    exact keepTags_eq_filter _ _
  · intro h
    rw [getMonitoredResource_eq_applyBranch, selectBranch_trigger h]
    exact keepTags_eq_filter _ _
  · intro h
    rw [getMonitoredResource_eq_applyBranch, selectBranch_importer h]
    exact keepTags_eq_filter _ _

/-- Claim C2 (witness): the amended filtering theorem applied to one concrete
view and tag list of each of the four kinds. -/
theorem dispatch_tag_filtering_witness :
    (getMonitoredResource "knative.dev/serving/activator" ⟨"p", "l", "c"⟩
        "request_count" [⟨"namespace_name", "ns"⟩, ⟨"route_name", "r"⟩]).1
      = [⟨"namespace_name", "ns"⟩, ⟨"route_name", "r"⟩].filter
          (fun t => decide (t.Key ∉ KnativeRevisionLabels)) ∧
    (getMonitoredResource "knative.dev/eventing/broker" ⟨"p", "l", "c"⟩
        "event_count" [⟨"broker_name", "b"⟩]).1
      = [(⟨"broker_name", "b"⟩ : Tag)].filter
          (fun t => decide (t.Key ∉ KnativeBrokerLabels)) ∧
    (getMonitoredResource "knative.dev/eventing/trigger" ⟨"p", "l", "c"⟩
        "event_count" [⟨"trigger_filter_type", "tf"⟩]).1
      = [(⟨"trigger_filter_type", "tf"⟩ : Tag)].filter
          (fun t => decide (t.Key ∉ KnativeTriggerLabels)) ∧
    (getMonitoredResource "knative.dev/eventing/importer" ⟨"p", "l", "c"⟩
        "event_count" [⟨"importer_name", "i"⟩]).1
      = [(⟨"importer_name", "i"⟩ : Tag)].filter
          (fun t => decide (t.Key ∉ KnativeTriggerLabels)) :=
  ⟨(dispatch_tag_filtering _ _ _ _).1 (by decide),
   (dispatch_tag_filtering _ _ _ _).2.1 (by decide),
   (dispatch_tag_filtering _ _ _ _).2.2.1 (by decide),
   (dispatch_tag_filtering _ _ _ _).2.2.2.1 (by decide)⟩

/-- Claim C3: for every view whose joined metric type is a knative revision
metric and every tag set with distinct keys, the dispatch returns a
KnativeRevision whose Project, Location and ClusterName come from the GCP
metadata, and whose NamespaceName, ServiceName, ConfigurationName and
RevisionName equal the value of the corresponding tag when present and "unknown"
when absent. -/
theorem revision_metric_resource_fields (typePref measureName : String)
    (gm : GcpMetadata) (tags : List Tag)
    (h : pathJoin typePref measureName ∈ KnativeRevisionMetrics)
    (hnd : (tags.map Tag.Key).Nodup) :
    ∃ kr : KnativeRevision,
      (getMonitoredResource typePref gm measureName tags).2
        = Resource.revision kr ∧
      kr.Project = gm.Project ∧
      kr.Location = gm.Location ∧
      kr.ClusterName = gm.Cluster ∧
      TagDerived tags LabelNamespaceName kr.NamespaceName ∧
      TagDerived tags LabelServiceName kr.ServiceName ∧
      TagDerived tags LabelConfigurationName kr.ConfigurationName ∧
      TagDerived tags LabelRevisionName kr.RevisionName := by
  rw [getMonitoredResource_eq_applyBranch, selectBranch_revision h]
  exact ⟨_, rfl, rfl, rfl, rfl,
    tagDerived_valueOrUnknown tags hnd _, tagDerived_valueOrUnknown tags hnd _,
    tagDerived_valueOrUnknown tags hnd _, tagDerived_valueOrUnknown tags hnd _⟩

/-- Claim C3 (witness): the revision-field theorem at a concrete activator view
with a namespace tag present and the other tags absent. -/
theorem revision_metric_resource_fields_witness :
    ∃ kr : KnativeRevision,
      (getMonitoredResource "knative.dev/serving/activator" ⟨"p", "l", "c"⟩
          "request_count" [⟨"namespace_name", "ns"⟩]).2
        = Resource.revision kr ∧
      kr.Project = "p" ∧
      kr.Location = "l" ∧
      kr.ClusterName = "c" ∧
      TagDerived [⟨"namespace_name", "ns"⟩] LabelNamespaceName kr.NamespaceName ∧
      TagDerived [⟨"namespace_name", "ns"⟩] LabelServiceName kr.ServiceName ∧
      TagDerived [⟨"namespace_name", "ns"⟩] LabelConfigurationName kr.ConfigurationName ∧
      TagDerived [⟨"namespace_name", "ns"⟩] LabelRevisionName kr.RevisionName :=
  revision_metric_resource_fields _ _ _ _ (by decide) (by decide)

/-- Claim C4: the three eventing metric-name sets are pairwise disjoint, the
branch selected by the if/else-if chain is unchanged when the membership tests
are permuted (shown for the full reversal), the dispatch itself equals branch
application through the permuted selection, and getMetricTypeFunc is likewise
order-independent. -/
theorem metric_dispatch_order_independent :
    (∀ s ∈ KnativeBrokerMetrics, s ∉ KnativeTriggerMetrics) ∧
    (∀ s ∈ KnativeBrokerMetrics, s ∉ KnativeImporterMetrics) ∧
    (∀ s ∈ KnativeTriggerMetrics, s ∉ KnativeImporterMetrics) ∧
    (∀ s, selectBranch s = selectBranchPerm s) ∧
    (∀ typePref gm measureName tags,
      getMonitoredResource typePref gm measureName tags
        = applyBranch gm tags (selectBranchPerm (pathJoin typePref measureName))) ∧
    (∀ typePref customTypePref measureName,
      getMetricType typePref customTypePref measureName
        = getMetricTypePerm typePref customTypePref measureName) := by
  have h4 : ∀ s, selectBranch s = selectBranchPerm s := by
    intro s
    by_cases hR : s ∈ KnativeRevisionMetrics <;>
    by_cases hB : s ∈ KnativeBrokerMetrics <;>
    by_cases hT : s ∈ KnativeTriggerMetrics <;>
    by_cases hI : s ∈ KnativeImporterMetrics <;>
    first
      | exact absurd hB (disjRB s hR)
      | exact absurd hT (disjRT s hR)
      | exact absurd hI (disjRI s hR)
      | exact absurd hT (disjBT s hB)
      | exact absurd hI (disjBI s hB)
      | exact absurd hI (disjTI s hT)
      | simp [selectBranch, selectBranchPerm, hR, hB, hT, hI]
  refine ⟨by decide, by decide, by decide, h4, ?_, ?_⟩
  · intro typePref gm measureName tags
    rw [getMonitoredResource_eq_applyBranch, h4]
  · intro typePref customTypePref measureName
    unfold getMetricType getMetricTypePerm
    split_ifs with h1 h2
    · rfl
    · exact absurd (by tauto) h2
    · exact absurd (by tauto) h1
    · rfl

/-- Claim C4 (witness): the order-independence theorem applied at concrete
metric types, discharging the membership hypotheses of the disjointness
conjuncts. -/
theorem metric_dispatch_order_independent_witness :
    "knative.dev/eventing/broker/event_count" ∉ KnativeTriggerMetrics ∧
    "knative.dev/eventing/broker/event_count" ∉ KnativeImporterMetrics ∧
    "knative.dev/eventing/trigger/event_count" ∉ KnativeImporterMetrics ∧
    selectBranch "knative.dev/eventing/broker/event_count"
      = selectBranchPerm "knative.dev/eventing/broker/event_count" :=
  ⟨metric_dispatch_order_independent.1 _ (by decide),
   metric_dispatch_order_independent.2.1 _ (by decide),
   metric_dispatch_order_independent.2.2.1 _ (by decide),
   metric_dispatch_order_independent.2.2.2.1 _⟩

/-- Claim C5: a view whose joined metric type is in none of the four metric sets
gets the Global monitored resource, with the input tag list returned completely
unchanged; the Global resource has type global and no labels. -/
theorem unmatched_metric_uses_global (typePref measureName : String)
    (gm : GcpMetadata) (tags : List Tag)
    (h1 : pathJoin typePref measureName ∉ KnativeRevisionMetrics)
    (h2 : pathJoin typePref measureName ∉ KnativeBrokerMetrics)
    (h3 : pathJoin typePref measureName ∉ KnativeTriggerMetrics)
    (h4 : pathJoin typePref measureName ∉ KnativeImporterMetrics) :
    getMonitoredResource typePref gm measureName tags = (tags, Resource.global) ∧
    Resource.global.monitoredResource = ("global", []) := by
  rw [getMonitoredResource_eq_applyBranch, selectBranch_global h1 h2 h3 h4]
  exact ⟨rfl, rfl⟩

/-- Claim C5 (witness): the global fallback at a concrete unsupported metric. -/
theorem unmatched_metric_uses_global_witness :
    getMonitoredResource "unsupported/component" ⟨"p", "l", "c"⟩ "request_count"
        [⟨"namespace_name", "ns"⟩]
      = ([⟨"namespace_name", "ns"⟩], Resource.global) ∧
    Resource.global.monitoredResource = ("global", []) :=
  unmatched_metric_uses_global _ _ _ _ (by decide) (by decide) (by decide) (by decide)

/-- Claim C7: for every view whose joined metric type is a knative broker metric
and every tag list, the dispatch yields resource type knative_broker with
exactly the five label keys project, location, cluster_name, namespace_name and
broker_name, and the returned tag list is exactly the input tags whose key is
not in KnativeBrokerLabels. -/
theorem broker_metric_resource_and_tags (typePref measureName : String)
    (gm : GcpMetadata) (tags : List Tag)
    (h : pathJoin typePref measureName ∈ KnativeBrokerMetrics) :
    ((getMonitoredResource typePref gm measureName tags).2.monitoredResource).1
      = "knative_broker" ∧
    ((getMonitoredResource typePref gm measureName tags).2.monitoredResource).2.map
        Prod.fst
      = [LabelProject, LabelLocation, LabelClusterName, LabelNamespaceName,
         LabelBrokerName] ∧
    (getMonitoredResource typePref gm measureName tags).1
      = tags.filter (fun t => decide (t.Key ∉ KnativeBrokerLabels)) := by
  rw [getMonitoredResource_eq_applyBranch, selectBranch_broker h]
  exact ⟨rfl, rfl, keepTags_eq_filter _ _⟩

/-- Claim C7 (witness): the broker theorem at a concrete broker view with a
broker_name tag (removed) and an unrelated tag (kept). -/
theorem broker_metric_resource_and_tags_witness :
    ((getMonitoredResource "knative.dev/eventing/broker" ⟨"p", "l", "c"⟩
        "event_count" [⟨"broker_name", "b"⟩, ⟨"other", "o"⟩]).2.monitoredResource).1
      = "knative_broker" ∧
    ((getMonitoredResource "knative.dev/eventing/broker" ⟨"p", "l", "c"⟩
        "event_count" [⟨"broker_name", "b"⟩, ⟨"other", "o"⟩]).2.monitoredResource).2.map
        Prod.fst
      = [LabelProject, LabelLocation, LabelClusterName, LabelNamespaceName,
         LabelBrokerName] ∧
    (getMonitoredResource "knative.dev/eventing/broker" ⟨"p", "l", "c"⟩
        "event_count" [⟨"broker_name", "b"⟩, ⟨"other", "o"⟩]).1
      = [⟨"broker_name", "b"⟩, ⟨"other", "o"⟩].filter
          (fun t => decide (t.Key ∉ KnativeBrokerLabels)) :=
  broker_metric_resource_and_tags _ _ _ _ (by decide)

/-! Helper lemmas for the Destination claims. -/

theorem validateDeprecatedFields_isSome (dest : Destination)
    (h : dest.DeprecatedAPIVersion ≠ "" ∨ dest.DeprecatedKind ≠ "" ∨
      dest.DeprecatedName ≠ "") :
    (validateDeprecatedFields dest).isSome = true := by
  by_cases h1 : dest.DeprecatedAPIVersion = "" <;>
  by_cases h2 : dest.DeprecatedKind = "" <;>
  by_cases h3 : dest.DeprecatedName = "" <;>
  simp_all [validateDeprecatedFields, alsoErr, ErrInvalidValue]

theorem validateDeprecatedFields_of_empty (dest : Destination)
    (h1 : dest.DeprecatedAPIVersion = "") (h2 : dest.DeprecatedKind = "")
    (h3 : dest.DeprecatedName = "") :
    validateDeprecatedFields dest = none := by
  simp [validateDeprecatedFields, h1, h2, h3]

theorem ValidateDestination_true (dest : Destination) :
    ValidateDestination dest true = validateDestinationRefURI dest := rfl

theorem ValidateDestination_of_vdf_none (dest : Destination) (allow : Bool)
    (h : validateDeprecatedFields dest = none) :
    ValidateDestination dest allow = validateDestinationRefURI dest := by
  cases allow
  · simp [ValidateDestination, h]
  · rfl

theorem deprecatedObjectReference_of_empty (dest : Destination)
    (h1 : dest.DeprecatedAPIVersion = "") (h2 : dest.DeprecatedKind = "")
    (h3 : dest.DeprecatedName = "") :
    dest.deprecatedObjectReference = none := by
  simp [Destination.deprecatedObjectReference, h1, h2, h3]

theorem deprecatedObjectReference_isSome (dest : Destination)
    (h : dest.DeprecatedAPIVersion ≠ "" ∨ dest.DeprecatedKind ≠ "" ∨
      dest.DeprecatedName ≠ "") :
    dest.deprecatedObjectReference.isSome = true := by
  unfold Destination.deprecatedObjectReference
  rw [if_neg (by tauto)]
  rfl

/-! Claim theorems for the Destination and duck-type claims. -/

/-- Claim C6 (counterexample): two concrete Destinations on which the claim
fails. First, a Destination whose Ref has all required fields present, no
deprecated fields and no URI, but a Namespace set: the claim predicts nil, yet
ValidateDestination returns a non-nil error (the disallowed-field check).
Second, a Destination carrying exactly the deprecated triple with URI nil: with
allowDeprecatedFields false the claim again predicts nil, yet a non-nil error is
returned. -/
theorem validate_destination_counterexample :
    (ValidateDestination
      { Ref := some { Kind := "Service", Namespace := "ns", Name := "n",
                      UID := "", APIVersion := "v1", ResourceVersion := "",
                      FieldPath := "" }
        DeprecatedAPIVersion := ""
        DeprecatedKind := ""
        DeprecatedName := ""
        URI := none } true).isSome = true ∧
    (ValidateDestination
      { Ref := none
        DeprecatedAPIVersion := "v1"
        DeprecatedKind := "Service"
        DeprecatedName := "n"
        URI := none } false).isSome = true := by
  decide

/-- Claim C6 (amended): ValidateDestination enforces mutual exclusion and
presence. If Ref is non-nil and some deprecated field is non-empty a non-nil
error is returned; if Ref is nil, the deprecated fields are empty and URI is nil
a non-nil error is returned; and nil is returned when exactly one of Ref or the
deprecated triple is set with the required ObjectReference fields present and
URI nil, provided additionally that in the Ref case the disallowed
ObjectReference fields (Namespace, UID, ResourceVersion, FieldPath) are unset,
and that in the deprecated case deprecated fields are allowed. -/
theorem validate_destination_amended (dest : Destination) (allow : Bool) :
    (dest.Ref.isSome = true →
      (dest.DeprecatedAPIVersion ≠ "" ∨ dest.DeprecatedKind ≠ "" ∨
        dest.DeprecatedName ≠ "") →
      (ValidateDestination dest allow).isSome = true) ∧
    (dest.Ref = none → dest.DeprecatedAPIVersion = "" →
      dest.DeprecatedKind = "" → dest.DeprecatedName = "" → dest.URI = none →
      (ValidateDestination dest allow).isSome = true) ∧
    (∀ r : ObjectReference, dest.Ref = some r →
      dest.DeprecatedAPIVersion = "" → dest.DeprecatedKind = "" →
      dest.DeprecatedName = "" → dest.URI = none →
      r.Name ≠ "" → r.APIVersion ≠ "" → r.Kind ≠ "" →
      r.Namespace = "" → r.UID = "" → r.ResourceVersion = "" → r.FieldPath = "" →
      ValidateDestination dest allow = none) ∧
    (dest.Ref = none →
      dest.DeprecatedAPIVersion ≠ "" → dest.DeprecatedKind ≠ "" →
      dest.DeprecatedName ≠ "" → dest.URI = none →
      ValidateDestination dest true = none) := by
  refine ⟨?_, ?_, ?_, ?_⟩
  · intro href hdep
    cases allow
    · obtain ⟨e, he⟩ := Option.isSome_iff_exists.mp
        (validateDeprecatedFields_isSome dest hdep)
      simp [ValidateDestination, he]
    · rw [ValidateDestination_true]
      unfold validateDestinationRefURI
      rw [if_pos (by simp [href, deprecatedObjectReference_isSome dest hdep])]
      rfl
  · intro href h1 h2 h3 huri
    rw [ValidateDestination_of_vdf_none dest allow
      (validateDeprecatedFields_of_empty dest h1 h2 h3)]
    unfold validateDestinationRefURI
    rw [if_neg (by simp [href])]
    rw [if_pos (by simp [href, huri, deprecatedObjectReference_of_empty dest h1 h2 h3])]
    rfl
  · intro r href h1 h2 h3 huri hname hapi hkind hns huid hrv hfp
    rw [ValidateDestination_of_vdf_none dest allow
      (validateDeprecatedFields_of_empty dest h1 h2 h3)]
    unfold validateDestinationRefURI
    rw [if_neg (by simp [deprecatedObjectReference_of_empty dest h1 h2 h3])]
    rw [if_neg (by simp [href, huri])]
    rw [if_neg (by simp [huri])]
    rw [if_neg (by simp [href, deprecatedObjectReference_of_empty dest h1 h2 h3, huri])]
    rw [if_pos (by simp [href, huri, deprecatedObjectReference_of_empty dest h1 h2 h3])]
    simp only [href, deprecatedObjectReference_of_empty dest h1 h2 h3]
    simp [IsValidObjectReference, checkRequiredObjectReferenceFields,
      checkDisallowedObjectReferenceFields, alsoErr, viaFieldErr,
      hname, hapi, hkind, hns, huid, hrv, hfp]
  · intro href h1 h2 h3 huri
    have hdr : dest.deprecatedObjectReference
        = some { Kind := dest.DeprecatedKind, Namespace := "",
                 Name := dest.DeprecatedName, UID := "",
                 APIVersion := dest.DeprecatedAPIVersion, ResourceVersion := "",
                 FieldPath := "" } := by
      unfold Destination.deprecatedObjectReference
      rw [if_neg (by tauto)]
    rw [ValidateDestination_true]
    unfold validateDestinationRefURI
    simp only [hdr, href]
    simp [IsValidObjectReference, checkRequiredObjectReferenceFields,
      checkDisallowedObjectReferenceFields, alsoErr, huri, h1, h2, h3]

/-- Claim C6 (witness): the amended validation theorem applied to concrete
Destinations of each shape. -/
theorem validate_destination_amended_witness :
    (ValidateDestination
      { Ref := some { Kind := "Service", Namespace := "", Name := "n", UID := "",
                      APIVersion := "v1", ResourceVersion := "", FieldPath := "" }
        DeprecatedAPIVersion := "v1"
        DeprecatedKind := ""
        DeprecatedName := ""
        URI := none } true).isSome = true ∧
    (ValidateDestination
      { Ref := none
        DeprecatedAPIVersion := ""
        DeprecatedKind := ""
        DeprecatedName := ""
        URI := none } true).isSome = true ∧
    ValidateDestination
      { Ref := some { Kind := "Service", Namespace := "", Name := "n", UID := "",
                      APIVersion := "v1", ResourceVersion := "", FieldPath := "" }
        DeprecatedAPIVersion := ""
        DeprecatedKind := ""
        DeprecatedName := ""
        URI := none } true = none ∧
    ValidateDestination
      { Ref := none
        DeprecatedAPIVersion := "v1"
        DeprecatedKind := "Service"
        DeprecatedName := "n"
        URI := none } true = none :=
  ⟨(validate_destination_amended
      { Ref := some { Kind := "Service", Namespace := "", Name := "n", UID := "",
                      APIVersion := "v1", ResourceVersion := "", FieldPath := "" }
        DeprecatedAPIVersion := "v1"
        DeprecatedKind := ""
        DeprecatedName := ""
        URI := none } true).1 (by decide) (by decide),
   (validate_destination_amended
      { Ref := none
        DeprecatedAPIVersion := ""
        DeprecatedKind := ""
        DeprecatedName := ""
        URI := none } true).2.1 rfl rfl rfl rfl rfl,
   (validate_destination_amended
      { Ref := some { Kind := "Service", Namespace := "", Name := "n", UID := "",
                      APIVersion := "v1", ResourceVersion := "", FieldPath := "" }
        DeprecatedAPIVersion := ""
        DeprecatedKind := ""
        DeprecatedName := ""
        URI := none } true).2.2.1
     { Kind := "Service", Namespace := "", Name := "n", UID := "",
       APIVersion := "v1", ResourceVersion := "", FieldPath := "" }
     rfl rfl rfl rfl rfl (by decide) (by decide) (by decide) rfl rfl rfl rfl,
   (validate_destination_amended
      { Ref := none
        DeprecatedAPIVersion := "v1"
        DeprecatedKind := "Service"
        DeprecatedName := "n"
        URI := none } true).2.2.2 rfl (by decide) (by decide) (by decide) rfl⟩

/-- Claim C8: Destination.GetRef gives Ref precedence over the deprecated
fields: it returns Ref when non-nil (even if deprecated fields are set);
otherwise, when some deprecated field is non-empty, an ObjectReference built
from the deprecated triple; otherwise nil, also for a nil receiver. -/
theorem getref_precedence :
    (∀ (dest : Destination) (r : ObjectReference), dest.Ref = some r →
      Destination.GetRef (some dest) = some r) ∧
    (∀ dest : Destination, dest.Ref = none →
      ((dest.DeprecatedAPIVersion ≠ "" ∨ dest.DeprecatedKind ≠ "" ∨
          dest.DeprecatedName ≠ "") →
        Destination.GetRef (some dest)
          = some { Kind := dest.DeprecatedKind, Namespace := "",
                   Name := dest.DeprecatedName, UID := "",
                   APIVersion := dest.DeprecatedAPIVersion,
                   ResourceVersion := "", FieldPath := "" }) ∧
      (dest.DeprecatedAPIVersion = "" → dest.DeprecatedKind = "" →
        dest.DeprecatedName = "" → Destination.GetRef (some dest) = none)) ∧
    Destination.GetRef none = none := by
  refine ⟨?_, ?_, rfl⟩
  · intro dest r h
    simp [Destination.GetRef, h]
  · intro dest h
    constructor
    · intro hdep
      have hdr : dest.deprecatedObjectReference
          = some { Kind := dest.DeprecatedKind, Namespace := "",
                   Name := dest.DeprecatedName, UID := "",
                   APIVersion := dest.DeprecatedAPIVersion,
                   ResourceVersion := "", FieldPath := "" } := by
        unfold Destination.deprecatedObjectReference
        rw [if_neg (by tauto)]
      simp [Destination.GetRef, h, hdr]
    · intro h1 h2 h3
      simp [Destination.GetRef, h,
        deprecatedObjectReference_of_empty dest h1 h2 h3]

/-- Claim C8 (witness): GetRef on a Destination with both Ref and deprecated
fields set (Ref wins), on one with only the deprecated triple, and on an empty
one. -/
theorem getref_precedence_witness :
    Destination.GetRef (some
      { Ref := some { Kind := "K", Namespace := "", Name := "r", UID := "",
                      APIVersion := "v1", ResourceVersion := "", FieldPath := "" }
        DeprecatedAPIVersion := "v2"
        DeprecatedKind := "DK"
        DeprecatedName := "dn"
        URI := none })
      = some { Kind := "K", Namespace := "", Name := "r", UID := "",
               APIVersion := "v1", ResourceVersion := "", FieldPath := "" } ∧
    Destination.GetRef (some
      { Ref := none
        DeprecatedAPIVersion := "v2"
        DeprecatedKind := "DK"
        DeprecatedName := "dn"
        URI := none })
      = some { Kind := "DK", Namespace := "", Name := "dn", UID := "",
               APIVersion := "v2", ResourceVersion := "", FieldPath := "" } ∧
    Destination.GetRef (some
      { Ref := none
        DeprecatedAPIVersion := ""
        DeprecatedKind := ""
        DeprecatedName := ""
        URI := none }) = none :=
  ⟨getref_precedence.1
     { Ref := some { Kind := "K", Namespace := "", Name := "r", UID := "",
                     APIVersion := "v1", ResourceVersion := "", FieldPath := "" }
       DeprecatedAPIVersion := "v2"
       DeprecatedKind := "DK"
       DeprecatedName := "dn"
       URI := none }
     { Kind := "K", Namespace := "", Name := "r", UID := "",
       APIVersion := "v1", ResourceVersion := "", FieldPath := "" } rfl,
   ((getref_precedence.2.1
     { Ref := none
       DeprecatedAPIVersion := "v2"
       DeprecatedKind := "DK"
       DeprecatedName := "dn"
       URI := none } rfl).1 (by decide)),
   ((getref_precedence.2.1
     { Ref := none
       DeprecatedAPIVersion := ""
       DeprecatedKind := ""
       DeprecatedName := ""
       URI := none } rfl).2 rfl rfl rfl)⟩

/-- Claim C9: ScalerSpec.SetDefault is idempotent, also through the nil-receiver
wrapper, and each of the class, MinScale and MaxScale fields is left unchanged
when already set. -/
theorem scaler_setdefault_idempotent :
    (∀ s : Option ScalerSpec, SetDefaultOpt (SetDefaultOpt s) = SetDefaultOpt s) ∧
    (∀ ss : ScalerSpec, ss.klass ≠ "" →
      (ScalerSpec.SetDefault ss).klass = ss.klass) ∧
    (∀ ss : ScalerSpec, ss.MinScale ≠ none →
      (ScalerSpec.SetDefault ss).MinScale = ss.MinScale) ∧
    (∀ ss : ScalerSpec, ss.MaxScale ≠ none →
      (ScalerSpec.SetDefault ss).MaxScale = ss.MaxScale) := by
  refine ⟨?_, ?_, ?_, ?_⟩
  · intro s
    cases s with
    | none => rfl
    | some ss =>
      simp only [SetDefaultOpt]
      congr 1
      by_cases h1 : ss.klass = "" <;>
      by_cases h2 : ss.MinScale = none <;>
      by_cases h3 : ss.MaxScale = none <;>
      simp [ScalerSpec.SetDefault, h1, h2, h3, defaultScalerClass, ScalerClassKeda]
  · intro ss h1
    by_cases h2 : ss.MinScale = none <;>
    by_cases h3 : ss.MaxScale = none <;>
    simp [ScalerSpec.SetDefault, h1, h2, h3]
  · intro ss h2
    by_cases h1 : ss.klass = "" <;>
    by_cases h3 : ss.MaxScale = none <;>
    simp [ScalerSpec.SetDefault, h1, h2, h3]
  · intro ss h3
    by_cases h1 : ss.klass = "" <;>
    by_cases h2 : ss.MinScale = none <;>
    simp [ScalerSpec.SetDefault, h1, h2, h3]

/-- Claim C9 (witness): the preservation conjuncts applied to a fully set
ScalerSpec, on which SetDefault changes nothing. -/
theorem scaler_setdefault_idempotent_witness :
    (ScalerSpec.SetDefault ⟨"ksvc", some 2, some 5, []⟩).klass = "ksvc" ∧
    (ScalerSpec.SetDefault ⟨"ksvc", some 2, some 5, []⟩).MinScale = some 2 ∧
    (ScalerSpec.SetDefault ⟨"ksvc", some 2, some 5, []⟩).MaxScale = some 5 :=
  ⟨scaler_setdefault_idempotent.2.1 ⟨"ksvc", some 2, some 5, []⟩ (by decide),
   scaler_setdefault_idempotent.2.2.1 ⟨"ksvc", some 2, some 5, []⟩ (by decide),
   scaler_setdefault_idempotent.2.2.2 ⟨"ksvc", some 2, some 5, []⟩ (by decide)⟩

theorem isReadyLoop_eq_find (cs : List Condition) :
    isReadyLoop cs
      = ((cs.find? fun c =>
            decide (c.condType = ConditionReady) ||
            decide (c.condType = ConditionSucceeded)).map Condition.IsTrue).getD
          false := by
  induction cs with
  | nil => rfl
  | cons c cs ih =>
    by_cases h : c.condType = ConditionReady ∨ c.condType = ConditionSucceeded
    · simp [isReadyLoop, List.find?_cons, h]
    · have h1 : ¬c.condType = ConditionReady := fun hc => h (Or.inl hc)
      have h2 : ¬c.condType = ConditionSucceeded := fun hc => h (Or.inr hc)
      simp [isReadyLoop, List.find?_cons, h, h1, h2, ih]

/-- Claim C10: SourceStatus.IsReady depends only on the first condition whose
type is Ready or Succeeded: it equals the status test of that condition when one
exists (in list order), and false when no condition of either type exists,
regardless of any other conditions. -/
theorem source_isready_first_happy_condition (ss : SourceStatus) :
    ss.IsReady
      = ((ss.Conditions.find? fun c =>
            decide (c.condType = ConditionReady) ||
            decide (c.condType = ConditionSucceeded)).map Condition.IsTrue).getD
          false :=
  isReadyLoop_eq_find ss.Conditions

end KnativePkg
